import Mathlib

/-!
Verification of the FlashLearn study-session engine and card controller.

The definitions below are a shallow embedding of:
* the React study-session component (its state, the card fetch handling,
  the Fisher-Yates shuffle, the click/answer/restart handlers and the
  render function), and
* the backend card controller's `updateCard` handler together with the
  engine's per-answer statistics payload.

Machine-level details that do not affect the verified properties are
modelled as follows: timestamps are natural numbers, card identifiers are
natural numbers, the browser's random source is an oracle `rand : Nat → Nat`
whose draw for loop index `i` is reduced modulo `i + 1` (mirroring
`Math.floor(Math.random() * (i + 1))`, which always lands in `[0, i]`),
and the two float operations (`Math.round` on the accuracy percentage)
are modelled over the rationals.
-/

namespace FlashLearn

/-- A flashcard as stored by the backend and as fetched by the study
session: the fields of the card schema that the verified code reads or
writes (front, back, difficulty, tags, and the three cumulative
statistics fields). -/
structure Card where
  id : Nat
  front : String
  back : String
  difficulty : String
  tags : List String
  studyCount : Nat
  correctCount : Nat
  lastStudied : Option Nat
  deriving Repr, DecidableEq

/-- The session statistics record kept by the study-session component
(`sessionStats` state). -/
structure SessionStats where
  totalCards : Nat
  studiedCards : Nat
  correctAnswers : Nat
  incorrectAnswers : Nat
  deriving Repr, DecidableEq

/-- The state of the study-session component: the card list, cursor,
flip flag, statistics, loading flag and completion flag, plus
`fetchCount`, an instrumentation counter of how many times the card
fetch has been issued (the "spy on the fetch call count" of the spec). -/
structure SessionState where
  cards : List Card
  currentCardIndex : Nat
  isFlipped : Bool
  sessionStats : SessionStats
  isLoading : Bool
  sessionComplete : Bool
  fetchCount : Nat
  deriving Repr, DecidableEq

/-- The component's mount-time state: empty card list, cursor 0, not
flipped, all-zero statistics, loading, not complete. -/
def initialState : SessionState :=
  { cards := []
    currentCardIndex := 0
    isFlipped := false
    sessionStats := { totalCards := 0, studiedCards := 0, correctAnswers := 0, incorrectAnswers := 0 }
    isLoading := true
    sessionComplete := false
    fetchCount := 0 }

/-- Observable events emitted by the engine: the per-answer statistics
sync request (with the absolute payload values it carries), the
settling of that request (resolve or reject), console error logging,
the two user-visible alert dialogs, the `onEndSession` callback, and the
card-advance / session-complete transitions. -/
inductive Event where
  | syncRequest (cardId : Nat) (studyCount : Nat) (correctCount : Nat) (lastStudied : Nat)
  | syncSettle (ok : Bool)
  | consoleError
  | alertNoCards
  | alertLoadFailed
  | endSession
  | advance
  | completeSession
  deriving Repr, DecidableEq

/-- The JSON body of the card fetch response that the component
inspects: the `success` flag and the (already difficulty-filtered)
card list. -/
structure FetchData where
  success : Bool
  cards : List Card
  deriving Repr, DecidableEq

/-- Swap the entries at positions `i` and `j` of a list, the list-level
rendering of the destructuring swap in the shuffle loop; out-of-range
indices leave the list unchanged (the loop never produces them). -/
def swapIdx (l : List Card) (i j : Nat) : List Card :=
  if h : i < l.length ∧ j < l.length then
    (l.set i (l.get ⟨j, h.2⟩)).set j (l.get ⟨i, h.1⟩)
  else l

/-- The Fisher-Yates loop: for `i` from the last index down to 1, draw
`j` uniformly in `[0, i]` and swap positions `i` and `j`.  The first
argument of `shuffleGo` is the current loop index. -/
def shuffleGo (rand : Nat → Nat) : Nat → List Card → List Card
  | 0, l => l
  | i + 1, l => shuffleGo rand i (swapIdx l (i + 1) (rand (i + 1) % (i + 2)))

/-- `shuffleArray`: copies the input and runs the Fisher-Yates loop from
index `length - 1` down to 1. -/
def shuffleArray (cards : List Card) (rand : Nat → Nat) : List Card :=
  shuffleGo rand (cards.length - 1) cards

/-- The success continuation of `fetchCards`: given the response body,
either installs the shuffled card list and its length as `totalCards`,
or (on an unsuccessful response or an empty card list) alerts that no
cards were found and invokes `onEndSession`; either way the `finally`
block clears `isLoading`.  The call itself bumps the fetch counter. -/
def fetchCards (s : SessionState) (data : FetchData) (rand : Nat → Nat) :
    SessionState × List Event :=
  if data.success = true ∧ 0 < data.cards.length then
    let shuffled := shuffleArray data.cards rand
    ({ s with
        cards := shuffled
        sessionStats := { s.sessionStats with totalCards := shuffled.length }
        isLoading := false
        fetchCount := s.fetchCount + 1 }, [])
  else
    ({ s with isLoading := false, fetchCount := s.fetchCount + 1 },
      [Event.alertNoCards, Event.endSession])

/-- The catch branch of `fetchCards` when the transport itself fails
(the `fetch` promise rejects): log the error, alert "Failed to load
cards. Please try again.", and fall through to the `finally` block that
clears `isLoading`.  Note that this branch does not invoke
`onEndSession` and does not install any cards. -/
def fetchCardsError (s : SessionState) : SessionState × List Event :=
  ({ s with isLoading := false, fetchCount := s.fetchCount + 1 },
    [Event.consoleError, Event.alertLoadFailed])

/-- `handleCardClick`: flip the current card; a no-op when already
flipped. -/
def handleCardClick (s : SessionState) : SessionState :=
  if s.isFlipped then s else { s with isFlipped := true }

/-- The body of `handleAnswer` once the current card has been read:
bump the session statistics, issue the statistics sync request with the
card's post-increment absolute counts and await its settling (`syncOk`
is the outcome of that awaited request; a rejection is caught and
logged), then advance the cursor or mark the session complete.  The
`none` branch of the card lookup in `handleAnswer` below is unreachable
under the rendering guard (the JS code would throw there). -/
def handleAnswerCore (s : SessionState) (currentCard : Card) (isCorrect : Bool) (syncOk : Bool)
    (now : Nat) : SessionState × List Event :=
  let stats := s.sessionStats
  let s1 : SessionState := { s with
    sessionStats := { stats with
      studiedCards := stats.studiedCards + 1
      correctAnswers := if isCorrect then stats.correctAnswers + 1 else stats.correctAnswers
      incorrectAnswers := if isCorrect then stats.incorrectAnswers else stats.incorrectAnswers + 1 } }
  let syncEvents :=
    [Event.syncRequest currentCard.id (currentCard.studyCount + 1)
        (if isCorrect then currentCard.correctCount + 1 else currentCard.correctCount) now,
      Event.syncSettle syncOk] ++ (if syncOk then [] else [Event.consoleError])
  if s1.currentCardIndex < s1.cards.length - 1 then
    ({ s1 with currentCardIndex := s1.currentCardIndex + 1, isFlipped := false },
      syncEvents ++ [Event.advance])
  else
    ({ s1 with sessionComplete := true }, syncEvents ++ [Event.completeSession])

/-- `handleAnswer` proper: the card lookup followed by the body above. -/
def handleAnswer (s : SessionState) (isCorrect : Bool) (syncOk : Bool) (now : Nat) :
    SessionState × List Event :=
  match s.cards[s.currentCardIndex]? with
  | none => (s, [])
  | some currentCard => handleAnswerCore s currentCard isCorrect syncOk now

/-- `handleRestartSession`: cursor back to 0, unflip, clear the
completion flag, and zero the three counters while spreading the rest
of the statistics record (so `totalCards` is kept). -/
def handleRestartSession (s : SessionState) : SessionState :=
  { s with
    currentCardIndex := 0
    isFlipped := false
    sessionComplete := false
    sessionStats := { s.sessionStats with
      studiedCards := 0
      correctAnswers := 0
      incorrectAnswers := 0 } }

/-- `Math.round` on a non-negative value: round half up. -/
def jsRound (q : ℚ) : ℤ := ⌊q + 1 / 2⌋

/-- The completion-screen accuracy:
`studiedCards > 0 ? Math.round((correctAnswers / studiedCards) * 100) : 0`. -/
def accuracy (stats : SessionStats) : ℤ :=
  if 0 < stats.studiedCards then
    jsRound ((stats.correctAnswers : ℚ) / (stats.studiedCards : ℚ) * 100)
  else 0

/-- What the component renders: the loading screen, the completion
screen, or the interactive card view (with its flip state and whether
the answer buttons are shown). -/
inductive View where
  | loading
  | completionScreen (stats : SessionStats) (acc : ℤ)
  | cardView (card : Card) (flipped : Bool) (answerButtons : Bool)
  deriving Repr, DecidableEq

/-- The component's render function.  After the loading and completion
branches it reads `cards[currentCardIndex]` and dereferences its
fields; when that index is out of range the JS code throws a
`TypeError` (reading `front` of `undefined`), modelled by `none`. -/
def render (s : SessionState) : Option View :=
  if s.isLoading then some View.loading
  else if s.sessionComplete then some (View.completionScreen s.sessionStats (accuracy s.sessionStats))
  else
    match s.cards[s.currentCardIndex]? with
    | none => none
    | some c => some (View.cardView c s.isFlipped s.isFlipped)

/-- The user-level operations on a running session: reveal the answer,
record an answer (with the environment's sync outcome and timestamp),
and restart from the completion screen. -/
inductive Action where
  | reveal
  | answer (isCorrect : Bool) (syncOk : Bool) (now : Nat)
  | restart
  deriving Repr, DecidableEq

/-- One user step.  Each handler fires only when its trigger is
rendered: the card is clickable and the answer buttons exist only in
the interactive card view (not loading, not complete; the buttons
additionally require the card to be flipped and the current card to
exist), and the restart button exists only on the completion screen.
An unavailable action leaves the state unchanged. -/
def stepUI (s : SessionState) (a : Action) : SessionState × List Event :=
  match a with
  | Action.reveal =>
      if s.isLoading = false ∧ s.sessionComplete = false then (handleCardClick s, [])
      else (s, [])
  | Action.answer isCorrect syncOk now =>
      if s.isLoading = false ∧ s.sessionComplete = false ∧ s.isFlipped = true ∧
          s.currentCardIndex < s.cards.length then
        handleAnswer s isCorrect syncOk now
      else (s, [])
  | Action.restart =>
      if s.isLoading = false ∧ s.sessionComplete = true then (handleRestartSession s, [])
      else (s, [])

/-- Run a list of user actions, accumulating the emitted events. -/
def runActions : SessionState → List Action → SessionState × List Event
  | s, [] => (s, [])
  | s, a :: rest =>
    let r := stepUI s a
    let r2 := runActions r.1 rest
    (r2.1, r.2 ++ r2.2)

/-- The state right after a resolved initialization fetch. -/
def startedState (data : FetchData) (rand : Nat → Nat) : SessionState :=
  (fetchCards initialState data rand).1

/-- The body of a `PUT /api/cards/:cardId` request.  `none` models an
absent (`undefined`) field. -/
structure UpdateCardBody where
  front : Option String
  back : Option String
  difficulty : Option String
  tags : Option (List String)
  studyCount : Option Nat
  correctCount : Option Nat
  lastStudied : Option Nat
  deriving Repr, DecidableEq

/-- The backend `updateCard` controller, applied to the stored card it
found: it destructures only `front`, `back`, `difficulty` and `tags`
from the request body and copies each defined one onto the card; the
`studyCount`, `correctCount` and `lastStudied` fields of the body are
never read. -/
def updateCard (card : Card) (body : UpdateCardBody) : Card :=
  let c1 := match body.front with | some v => { card with front := v } | none => card
  let c2 := match body.back with | some v => { c1 with back := v } | none => c1
  let c3 := match body.difficulty with | some v => { c2 with difficulty := v } | none => c2
  match body.tags with | some v => { c3 with tags := v } | none => c3

/-- The request body the engine sends for the per-answer statistics
sync: exactly the three statistics fields, with the full new absolute
values (post-increment counts and the current timestamp). -/
def syncBody (c : Card) (isCorrect : Bool) (now : Nat) : UpdateCardBody :=
  { front := none
    back := none
    difficulty := none
    tags := none
    studyCount := some (c.studyCount + 1)
    correctCount := some (if isCorrect then c.correctCount + 1 else c.correctCount)
    lastStudied := some now }

/-- Is this event the card-advance or the session-completion
transition? -/
def isAdvanceEvent : Event → Bool
  | Event.advance => true
  | Event.completeSession => true
  | _ => false

/-- Is this event the settling of the statistics sync request? -/
def isSettleEvent : Event → Bool
  | Event.syncSettle _ => true
  | _ => false

/-- The first advance-or-settle event of the trace is an advance: the
engine moved on before the sync request settled. -/
def advanceBeforeSettle : List Event → Bool
  | [] => false
  | e :: es =>
    if isAdvanceEvent e then true
    else if isSettleEvent e then false
    else advanceBeforeSettle es

/-- The first advance-or-settle event of the trace is the settling of
the sync: the engine waited for the sync before moving on. -/
def settleBeforeAdvance : List Event → Bool
  | [] => false
  | e :: es =>
    if isSettleEvent e then true
    else if isAdvanceEvent e then false
    else settleBeforeAdvance es

/-- Sample card matching the spec scenario: existing `studyCount = 4`,
`correctCount = 2`. -/
def cardA : Card :=
  { id := 1, front := "Q1", back := "A1", difficulty := "easy", tags := [],
    studyCount := 4, correctCount := 2, lastStudied := none }

/-- Second sample card. -/
def cardB : Card :=
  { id := 2, front := "Q2", back := "A2", difficulty := "medium", tags := ["t"],
    studyCount := 0, correctCount := 0, lastStudied := none }

/-- Third sample card. -/
def cardC : Card :=
  { id := 3, front := "Q3", back := "A3", difficulty := "hard", tags := [],
    studyCount := 7, correctCount := 7, lastStudied := some 99 }

open List

theorem cons_get_set_perm {α : Type} : ∀ (t : List α) (m : Nat) (hm : m < t.length) (a : α),
    (t.get ⟨m, hm⟩ :: t.set m a).Perm (a :: t)
  | b :: t, 0, _, a => by
    simpa using List.Perm.swap a b t
  | b :: t, m + 1, hm, a => by
    have hm2 : m < t.length := by simpa using hm
    have ih := cons_get_set_perm t m hm2 a
    calc ((b :: t).get ⟨m + 1, hm⟩ :: (b :: t).set (m + 1) a)
        = (t.get ⟨m, hm2⟩ :: b :: t.set m a) := by simp
      _ ~ (b :: t.get ⟨m, hm2⟩ :: t.set m a) := List.Perm.swap _ _ _
      _ ~ (b :: a :: t) := ih.cons b
      _ ~ (a :: b :: t) := List.Perm.swap _ _ _

theorem set_set_swap_perm {α : Type} :
    ∀ (l : List α) (i j : Nat) (hi : i < l.length) (hj : j < l.length),
    ((l.set i (l.get ⟨j, hj⟩)).set j (l.get ⟨i, hi⟩)).Perm l
  | a :: t, 0, 0, _, _ => by simp
  | a :: t, 0, j + 1, hi, hj => by
    have hj2 : j < t.length := by simpa using hj
    simpa using cons_get_set_perm t j hj2 a
  | a :: t, i + 1, 0, hi, hj => by
    have hi2 : i < t.length := by simpa using hi
    simpa using cons_get_set_perm t i hi2 a
  | a :: t, i + 1, j + 1, hi, hj => by
    have hi2 : i < t.length := by simpa using hi
    have hj2 : j < t.length := by simpa using hj
    simpa using (set_set_swap_perm t i j hi2 hj2).cons a

theorem swapIdx_perm (l : List Card) (i j : Nat) : (swapIdx l i j).Perm l := by
  unfold swapIdx
  split
  case isTrue h => exact set_set_swap_perm l i j h.1 h.2
  case isFalse => exact List.Perm.refl l

theorem shuffleGo_perm (rand : Nat → Nat) :
    ∀ (n : Nat) (l : List Card), (shuffleGo rand n l).Perm l
  | 0, l => List.Perm.refl l
  | n + 1, l =>
    (shuffleGo_perm rand n _).trans (swapIdx_perm l (n + 1) (rand (n + 1) % (n + 2)))

theorem shuffleArray_perm (cards : List Card) (rand : Nat → Nat) :
    (shuffleArray cards rand).Perm cards :=
  shuffleGo_perm rand (cards.length - 1) cards

theorem shuffleArray_length (cards : List Card) (rand : Nat → Nat) :
    (shuffleArray cards rand).length = cards.length :=
  (shuffleArray_perm cards rand).length_eq

/-- C4: for every non-empty input card list, `shuffleArray` returns a
permutation of its input — the output carries the same multiset of card
identifiers and has unchanged length. -/
theorem shuffleArray_permutation (cards : List Card) (rand : Nat → Nat) (h : cards ≠ []) :
    ((shuffleArray cards rand).map Card.id : Multiset Nat) =
      (cards.map Card.id : Multiset Nat) ∧
    (shuffleArray cards rand).length = cards.length :=
  ⟨Multiset.coe_eq_coe.mpr ((shuffleArray_perm cards rand).map Card.id),
    shuffleArray_length cards rand⟩

theorem shuffleArray_permutation_witness :
    ([cardA, cardB, cardC] : List Card) ≠ [] ∧
    (((shuffleArray [cardA, cardB, cardC] (fun n => n + 1)).map Card.id : Multiset Nat) =
        (([cardA, cardB, cardC] : List Card).map Card.id : Multiset Nat) ∧
      (shuffleArray [cardA, cardB, cardC] (fun n => n + 1)).length =
        ([cardA, cardB, cardC] : List Card).length) :=
  ⟨by decide, shuffleArray_permutation [cardA, cardB, cardC] (fun n => n + 1) (by decide)⟩

/-- C1 (code evaluated at the failing input): for the spec's scenario
card (`studyCount = 4`, `correctCount = 2`) answered correctly at
timestamp 1000, the engine's sync payload does carry the full new
absolute values 5, 3 and 1000 — but the backend `updateCard` handler,
which serves that request, never reads those three body fields, so the
stored card keeps `studyCount = 4`, `correctCount = 2` and an unchanged
`lastStudied` instead of the claimed post-increment values. -/
theorem updateCard_drops_stats_payload :
    (syncBody cardA true 1000).studyCount = some 5 ∧
    (syncBody cardA true 1000).correctCount = some 3 ∧
    (syncBody cardA true 1000).lastStudied = some 1000 ∧
    updateCard cardA (syncBody cardA true 1000) = cardA ∧
    (updateCard cardA (syncBody cardA true 1000)).studyCount = 4 ∧
    (updateCard cardA (syncBody cardA true 1000)).correctCount = 2 ∧
    (updateCard cardA (syncBody cardA true 1000)).lastStudied = none := by
  decide

/-- C2 (code evaluated at the failing input): when the initialization
fetch fails with a transport error, the component only logs, alerts and
clears `isLoading`; it never invokes `onEndSession`, and it is left in
a state that is neither loading nor complete with an empty card list,
so the subsequent render reaches the interactive card view and
dereferences a card that does not exist (`render` is `none`, a runtime
`TypeError` in the JS code) — a half-constructed session state. -/
theorem fetchError_leaves_broken_state :
    (fetchCardsError initialState).1.isLoading = false ∧
    (fetchCardsError initialState).1.sessionComplete = false ∧
    (fetchCardsError initialState).1.cards = [] ∧
    render (fetchCardsError initialState).1 = none ∧
    Event.endSession ∉ (fetchCardsError initialState).2 := by
  decide

/-- C5: for every fetch response whose (difficulty-filtered) card set
is empty, no session is started: the card list stays empty,
`totalCards` stays 0, the session is not marked complete, and the
component signals the empty set to the user and returns control to the
caller through `onEndSession`. -/
theorem emptySet_no_session (data : FetchData) (rand : Nat → Nat) (h : data.cards = []) :
    (fetchCards initialState data rand).1.cards = [] ∧
    (fetchCards initialState data rand).1.sessionStats.totalCards = 0 ∧
    (fetchCards initialState data rand).1.sessionComplete = false ∧
    (fetchCards initialState data rand).2 = [Event.alertNoCards, Event.endSession] := by
  have hcond : ¬(data.success = true ∧ 0 < data.cards.length) := by
    simp [h]
  simp [fetchCards, hcond, initialState]

theorem emptySet_no_session_witness :
    (⟨true, []⟩ : FetchData).cards = [] ∧
    ((fetchCards initialState ⟨true, []⟩ (fun n => n)).1.cards = [] ∧
      (fetchCards initialState ⟨true, []⟩ (fun n => n)).1.sessionStats.totalCards = 0 ∧
      (fetchCards initialState ⟨true, []⟩ (fun n => n)).1.sessionComplete = false ∧
      (fetchCards initialState ⟨true, []⟩ (fun n => n)).2 =
        [Event.alertNoCards, Event.endSession]) :=
  ⟨rfl, emptySet_no_session ⟨true, []⟩ (fun n => n) rfl⟩

/-- C3 (counterexample): the claim that the engine advances to the next
card without waiting for the per-answer sync is false at a concrete
input.  For a flipped one-card session on `cardA`, the trace produced
by recording a correct answer settles the awaited sync request before
the advance/complete transition: its first advance-or-settle event is
the settle, not the advance. -/
theorem advance_without_await_counterexample :
    advanceBeforeSettle
      (handleAnswer
        { cards := [cardA], currentCardIndex := 0, isFlipped := true,
          sessionStats := { totalCards := 1, studiedCards := 0, correctAnswers := 0, incorrectAnswers := 0 },
          isLoading := false, sessionComplete := false, fetchCount := 1 }
        true true 5).2 = false := by
  decide

/-- C3 (amended): `handleAnswer` awaits the per-answer sync before the
card-advance transition: in every trace it produces (whenever a current
card exists) the sync settles first and the advance/complete event
nevertheless always follows, whatever the sync outcome. -/
theorem answer_awaits_sync_then_advances (s : SessionState) (isCorrect syncOk : Bool)
    (now : Nat) (h : s.currentCardIndex < s.cards.length) :
    settleBeforeAdvance (handleAnswer s isCorrect syncOk now).2 = true ∧
    (handleAnswer s isCorrect syncOk now).2.any isAdvanceEvent = true := by
  have hc : s.cards[s.currentCardIndex]? = some (s.cards.get ⟨s.currentCardIndex, h⟩) :=
    List.getElem?_eq_getElem h
  unfold handleAnswer
  rw [hc]
  unfold handleAnswerCore
  cases syncOk <;>
    simp [settleBeforeAdvance, isSettleEvent, isAdvanceEvent] <;>
    split <;>
    simp [settleBeforeAdvance, isSettleEvent, isAdvanceEvent]

theorem answer_awaits_sync_then_advances_witness :
    (0 < ([cardA] : List Card).length) ∧
    (settleBeforeAdvance
        (handleAnswer
          { cards := [cardA], currentCardIndex := 0, isFlipped := true,
            sessionStats := { totalCards := 1, studiedCards := 0, correctAnswers := 0, incorrectAnswers := 0 },
            isLoading := false, sessionComplete := false, fetchCount := 1 }
          true false 5).2 = true ∧
      (handleAnswer
          { cards := [cardA], currentCardIndex := 0, isFlipped := true,
            sessionStats := { totalCards := 1, studiedCards := 0, correctAnswers := 0, incorrectAnswers := 0 },
            isLoading := false, sessionComplete := false, fetchCount := 1 }
          true false 5).2.any isAdvanceEvent = true) :=
  ⟨by decide,
    answer_awaits_sync_then_advances
      { cards := [cardA], currentCardIndex := 0, isFlipped := true,
        sessionStats := { totalCards := 1, studiedCards := 0, correctAnswers := 0, incorrectAnswers := 0 },
        isLoading := false, sessionComplete := false, fetchCount := 1 }
      true false 5 (by decide)⟩

/-- C8: a failed per-answer sync is fully absorbed: given a current
card, the state `handleAnswer` produces on a rejected sync is identical
to the one produced on a resolved sync (statistics increments and the
advance/complete transition are untouched), the failure is logged to
the console, and no user-visible alert and no session exit is
emitted. -/
theorem syncFailure_absorbed (s : SessionState) (isCorrect : Bool) (now : Nat)
    (h : s.currentCardIndex < s.cards.length) :
    (handleAnswer s isCorrect false now).1 = (handleAnswer s isCorrect true now).1 ∧
    Event.consoleError ∈ (handleAnswer s isCorrect false now).2 ∧
    Event.alertLoadFailed ∉ (handleAnswer s isCorrect false now).2 ∧
    Event.alertNoCards ∉ (handleAnswer s isCorrect false now).2 ∧
    Event.endSession ∉ (handleAnswer s isCorrect false now).2 ∧
    (handleAnswer s isCorrect false now).2.any isAdvanceEvent = true := by
  have hc : s.cards[s.currentCardIndex]? = some (s.cards.get ⟨s.currentCardIndex, h⟩) :=
    List.getElem?_eq_getElem h
  unfold handleAnswer
  rw [hc]
  unfold handleAnswerCore
  simp only []
  split <;> simp [isAdvanceEvent]

theorem syncFailure_absorbed_witness :
    (0 < ([cardA, cardB] : List Card).length) ∧
    ((handleAnswer
        { cards := [cardA, cardB], currentCardIndex := 0, isFlipped := true,
          sessionStats := { totalCards := 2, studiedCards := 0, correctAnswers := 0, incorrectAnswers := 0 },
          isLoading := false, sessionComplete := false, fetchCount := 1 }
        false false 9).1 =
      (handleAnswer
        { cards := [cardA, cardB], currentCardIndex := 0, isFlipped := true,
          sessionStats := { totalCards := 2, studiedCards := 0, correctAnswers := 0, incorrectAnswers := 0 },
          isLoading := false, sessionComplete := false, fetchCount := 1 }
        false true 9).1 ∧
      Event.consoleError ∈ (handleAnswer
        { cards := [cardA, cardB], currentCardIndex := 0, isFlipped := true,
          sessionStats := { totalCards := 2, studiedCards := 0, correctAnswers := 0, incorrectAnswers := 0 },
          isLoading := false, sessionComplete := false, fetchCount := 1 }
        false false 9).2 ∧
      Event.alertLoadFailed ∉ (handleAnswer
        { cards := [cardA, cardB], currentCardIndex := 0, isFlipped := true,
          sessionStats := { totalCards := 2, studiedCards := 0, correctAnswers := 0, incorrectAnswers := 0 },
          isLoading := false, sessionComplete := false, fetchCount := 1 }
        false false 9).2 ∧
      Event.alertNoCards ∉ (handleAnswer
        { cards := [cardA, cardB], currentCardIndex := 0, isFlipped := true,
          sessionStats := { totalCards := 2, studiedCards := 0, correctAnswers := 0, incorrectAnswers := 0 },
          isLoading := false, sessionComplete := false, fetchCount := 1 }
        false false 9).2 ∧
      Event.endSession ∉ (handleAnswer
        { cards := [cardA, cardB], currentCardIndex := 0, isFlipped := true,
          sessionStats := { totalCards := 2, studiedCards := 0, correctAnswers := 0, incorrectAnswers := 0 },
          isLoading := false, sessionComplete := false, fetchCount := 1 }
        false false 9).2 ∧
      (handleAnswer
        { cards := [cardA, cardB], currentCardIndex := 0, isFlipped := true,
          sessionStats := { totalCards := 2, studiedCards := 0, correctAnswers := 0, incorrectAnswers := 0 },
          isLoading := false, sessionComplete := false, fetchCount := 1 }
        false false 9).2.any isAdvanceEvent = true) :=
  ⟨by decide,
    syncFailure_absorbed
      { cards := [cardA, cardB], currentCardIndex := 0, isFlipped := true,
        sessionStats := { totalCards := 2, studiedCards := 0, correctAnswers := 0, incorrectAnswers := 0 },
        isLoading := false, sessionComplete := false, fetchCount := 1 }
      false 9 (by decide)⟩

theorem handleAnswer_frame (s : SessionState) (b ok : Bool) (now : Nat) :
    (handleAnswer s b ok now).1.cards = s.cards ∧
    (handleAnswer s b ok now).1.fetchCount = s.fetchCount ∧
    (handleAnswer s b ok now).1.isLoading = s.isLoading ∧
    (handleAnswer s b ok now).1.sessionStats.totalCards = s.sessionStats.totalCards := by
  unfold handleAnswer
  cases hc : s.cards[s.currentCardIndex]? with
  | none => exact ⟨rfl, rfl, rfl, rfl⟩
  | some c =>
    unfold handleAnswerCore
    simp only []
    split <;> exact ⟨rfl, rfl, rfl, rfl⟩

theorem stepUI_frame (s : SessionState) (a : Action) :
    (stepUI s a).1.cards = s.cards ∧
    (stepUI s a).1.fetchCount = s.fetchCount ∧
    (stepUI s a).1.isLoading = s.isLoading ∧
    (stepUI s a).1.sessionStats.totalCards = s.sessionStats.totalCards := by
  cases a with
  | reveal =>
    simp only [stepUI]
    by_cases hg : s.isLoading = false ∧ s.sessionComplete = false
    · rw [if_pos hg]
      unfold handleCardClick
      by_cases hf : s.isFlipped = true
      · rw [if_pos hf]; exact ⟨rfl, rfl, rfl, rfl⟩
      · rw [if_neg hf]; exact ⟨rfl, rfl, rfl, rfl⟩
    · rw [if_neg hg]; exact ⟨rfl, rfl, rfl, rfl⟩
  | answer b ok now =>
    simp only [stepUI]
    by_cases hg : s.isLoading = false ∧ s.sessionComplete = false ∧ s.isFlipped = true ∧
        s.currentCardIndex < s.cards.length
    · rw [if_pos hg]; exact handleAnswer_frame s b ok now
    · rw [if_neg hg]; exact ⟨rfl, rfl, rfl, rfl⟩
  | restart =>
    simp only [stepUI]
    by_cases hg : s.isLoading = false ∧ s.sessionComplete = true
    · rw [if_pos hg]; exact ⟨rfl, rfl, rfl, rfl⟩
    · rw [if_neg hg]; exact ⟨rfl, rfl, rfl, rfl⟩

theorem runActions_frame (s : SessionState) (actions : List Action) :
    (runActions s actions).1.cards = s.cards ∧
    (runActions s actions).1.fetchCount = s.fetchCount ∧
    (runActions s actions).1.isLoading = s.isLoading := by
  induction actions generalizing s with
  | nil => exact ⟨rfl, rfl, rfl⟩
  | cons a rest ih =>
    have hstep := stepUI_frame s a
    have hrest := ih (stepUI s a).1
    exact ⟨hrest.1.trans hstep.1, hrest.2.1.trans hstep.2.1, hrest.2.2.trans hstep.2.2.1⟩

/-- The inductive invariant of a running session: the component is past
loading, the studied counter is the sum of the correct and incorrect
counters, `totalCards` caches the drawn list's length (which is at
least 1), and the studied counter tracks the cursor while the session
runs and equals `totalCards` once it completes. -/
def StrongInv (s : SessionState) : Prop :=
  s.isLoading = false ∧
  s.sessionStats.studiedCards = s.sessionStats.correctAnswers + s.sessionStats.incorrectAnswers ∧
  s.sessionStats.totalCards = s.cards.length ∧
  1 ≤ s.cards.length ∧
  (s.sessionComplete = true → s.sessionStats.studiedCards = s.sessionStats.totalCards) ∧
  (s.sessionComplete = false →
    s.sessionStats.studiedCards = s.currentCardIndex ∧ s.currentCardIndex < s.cards.length)

theorem strongInv_step (s : SessionState) (a : Action) (h : StrongInv s) :
    StrongInv (stepUI s a).1 := by
  obtain ⟨hL, hSum, hTot, hLen, hCt, hCf⟩ := h
  cases a with
  | reveal =>
    simp only [stepUI]
    by_cases hg : s.isLoading = false ∧ s.sessionComplete = false
    · rw [if_pos hg]
      unfold handleCardClick
      by_cases hf : s.isFlipped = true
      · rw [if_pos hf]; exact ⟨hL, hSum, hTot, hLen, hCt, hCf⟩
      · rw [if_neg hf]; exact ⟨hL, hSum, hTot, hLen, hCt, hCf⟩
    · rw [if_neg hg]; exact ⟨hL, hSum, hTot, hLen, hCt, hCf⟩
  | restart =>
    simp only [stepUI]
    by_cases hg : s.isLoading = false ∧ s.sessionComplete = true
    · rw [if_pos hg]
      unfold handleRestartSession
      refine ⟨hL, rfl, hTot, hLen, ?_, ?_⟩
      · intro hx; cases hx
      · intro _; exact ⟨rfl, Nat.lt_of_lt_of_le Nat.zero_lt_one hLen⟩
    · rw [if_neg hg]; exact ⟨hL, hSum, hTot, hLen, hCt, hCf⟩
  | answer b ok now =>
    simp only [stepUI]
    by_cases hg : s.isLoading = false ∧ s.sessionComplete = false ∧ s.isFlipped = true ∧
        s.currentCardIndex < s.cards.length
    case pos =>
      rw [if_pos hg]
      obtain ⟨hL2, hcomp, hflip, hidx⟩ := hg
      have hc : s.cards[s.currentCardIndex]? = some (s.cards.get ⟨s.currentCardIndex, hidx⟩) :=
        List.getElem?_eq_getElem hidx
      obtain ⟨hstud, hlt⟩ := hCf hcomp
      unfold handleAnswer
      rw [hc]
      unfold handleAnswerCore
      simp only []
      by_cases hlt2 : s.currentCardIndex < s.cards.length - 1
      · rw [if_pos hlt2]
        refine ⟨hL, ?_, hTot, hLen, ?_, fun _ => ⟨?_, ?_⟩⟩
        · cases b <;> simp <;> omega
        · intro hx; rw [hcomp] at hx; cases hx
        · simp; omega
        · simp; omega
      · rw [if_neg hlt2]
        refine ⟨hL, ?_, hTot, hLen, fun _ => ?_, ?_⟩
        · cases b <;> simp <;> omega
        · simp; omega
        · intro hx; cases hx
    case neg =>
      rw [if_neg hg]
      exact ⟨hL, hSum, hTot, hLen, hCt, hCf⟩

theorem strongInv_run (s : SessionState) (actions : List Action) (h : StrongInv s) :
    StrongInv (runActions s actions).1 := by
  induction actions generalizing s with
  | nil => exact h
  | cons a rest ih => exact ih (stepUI s a).1 (strongInv_step s a h)

theorem startedState_strongInv (data : FetchData) (rand : Nat → Nat)
    (hs : data.success = true) (hne : data.cards ≠ []) :
    StrongInv (startedState data rand) := by
  have hpos : 0 < data.cards.length := List.length_pos.mpr hne
  unfold startedState fetchCards
  rw [if_pos ⟨hs, hpos⟩]
  refine ⟨rfl, rfl, rfl, ?_, ?_, ?_⟩
  · simpa [shuffleArray_length] using hpos
  · intro hx; cases hx
  · intro _
    exact ⟨rfl, by simpa [shuffleArray_length] using hpos⟩

theorem startedState_fetchCount (data : FetchData) (rand : Nat → Nat) :
    (startedState data rand).fetchCount = 1 := by
  unfold startedState fetchCards
  split <;> rfl

/-- C6: in every reachable session state — the initialized state
followed by any sequence of reveal, answer and restart operations —
the statistics satisfy `studiedCards = correctAnswers +
incorrectAnswers` and `studiedCards ≤ totalCards`. -/
theorem session_stats_invariant (data : FetchData) (rand : Nat → Nat)
    (hs : data.success = true) (hne : data.cards ≠ []) (actions : List Action) :
    (runActions (startedState data rand) actions).1.sessionStats.studiedCards =
        (runActions (startedState data rand) actions).1.sessionStats.correctAnswers +
          (runActions (startedState data rand) actions).1.sessionStats.incorrectAnswers ∧
      (runActions (startedState data rand) actions).1.sessionStats.studiedCards ≤
        (runActions (startedState data rand) actions).1.sessionStats.totalCards := by
  obtain ⟨-, hSum, hTot, -, hCt, hCf⟩ :=
    strongInv_run (startedState data rand) actions (startedState_strongInv data rand hs hne)
  refine ⟨hSum, ?_⟩
  cases hcomp : (runActions (startedState data rand) actions).1.sessionComplete with
  | false =>
    obtain ⟨h1, h2⟩ := hCf hcomp
    omega
  | true =>
    exact Nat.le_of_eq (hCt hcomp)

theorem session_stats_invariant_witness :
    ((⟨true, [cardA, cardB]⟩ : FetchData).success = true ∧
      (⟨true, [cardA, cardB]⟩ : FetchData).cards ≠ []) ∧
    ((runActions (startedState ⟨true, [cardA, cardB]⟩ (fun n => n))
          [Action.reveal, Action.answer true true 3]).1.sessionStats.studiedCards =
        (runActions (startedState ⟨true, [cardA, cardB]⟩ (fun n => n))
          [Action.reveal, Action.answer true true 3]).1.sessionStats.correctAnswers +
          (runActions (startedState ⟨true, [cardA, cardB]⟩ (fun n => n))
            [Action.reveal, Action.answer true true 3]).1.sessionStats.incorrectAnswers ∧
      (runActions (startedState ⟨true, [cardA, cardB]⟩ (fun n => n))
          [Action.reveal, Action.answer true true 3]).1.sessionStats.studiedCards ≤
        (runActions (startedState ⟨true, [cardA, cardB]⟩ (fun n => n))
          [Action.reveal, Action.answer true true 3]).1.sessionStats.totalCards) :=
  ⟨⟨rfl, by decide⟩,
    session_stats_invariant ⟨true, [cardA, cardB]⟩ (fun n => n) rfl (by decide)
      [Action.reveal, Action.answer true true 3]⟩

/-- C7: across one initialization and any sequence of session
operations (including any number of restarts) the fetch count stays 1
and the drawn card order never changes; a restart itself resets the
cursor to 0, unflips the card, zeroes the three counters while keeping
`totalCards`, and leaves the card list and the fetch count untouched —
no new fetch and no reshuffle. -/
theorem restart_keeps_draw_no_refetch (data : FetchData) (rand : Nat → Nat)
    (hs : data.success = true) (hne : data.cards ≠ []) (actions : List Action) :
    (runActions (startedState data rand) actions).1.fetchCount = 1 ∧
    (runActions (startedState data rand) actions).1.cards = (startedState data rand).cards ∧
    (handleRestartSession (runActions (startedState data rand) actions).1).cards =
      (startedState data rand).cards ∧
    (handleRestartSession (runActions (startedState data rand) actions).1).fetchCount = 1 ∧
    (handleRestartSession (runActions (startedState data rand) actions).1).currentCardIndex = 0 ∧
    (handleRestartSession (runActions (startedState data rand) actions).1).isFlipped = false ∧
    (handleRestartSession (runActions (startedState data rand) actions).1).sessionStats =
      { totalCards := (runActions (startedState data rand) actions).1.sessionStats.totalCards,
        studiedCards := 0, correctAnswers := 0, incorrectAnswers := 0 } := by
  obtain ⟨hcards, hfetch, -⟩ := runActions_frame (startedState data rand) actions
  have h1 : (runActions (startedState data rand) actions).1.fetchCount = 1 :=
    hfetch.trans (startedState_fetchCount data rand)
  exact ⟨h1, hcards, hcards, h1, rfl, rfl, rfl⟩

theorem restart_keeps_draw_no_refetch_witness :
    ((⟨true, [cardA, cardB]⟩ : FetchData).success = true ∧
      (⟨true, [cardA, cardB]⟩ : FetchData).cards ≠ []) ∧
    ((runActions (startedState ⟨true, [cardA, cardB]⟩ (fun n => n))
          [Action.reveal, Action.answer true true 3]).1.fetchCount = 1 ∧
      (runActions (startedState ⟨true, [cardA, cardB]⟩ (fun n => n))
          [Action.reveal, Action.answer true true 3]).1.cards =
        (startedState ⟨true, [cardA, cardB]⟩ (fun n => n)).cards ∧
      (handleRestartSession (runActions (startedState ⟨true, [cardA, cardB]⟩ (fun n => n))
            [Action.reveal, Action.answer true true 3]).1).cards =
        (startedState ⟨true, [cardA, cardB]⟩ (fun n => n)).cards ∧
      (handleRestartSession (runActions (startedState ⟨true, [cardA, cardB]⟩ (fun n => n))
            [Action.reveal, Action.answer true true 3]).1).fetchCount = 1 ∧
      (handleRestartSession (runActions (startedState ⟨true, [cardA, cardB]⟩ (fun n => n))
            [Action.reveal, Action.answer true true 3]).1).currentCardIndex = 0 ∧
      (handleRestartSession (runActions (startedState ⟨true, [cardA, cardB]⟩ (fun n => n))
            [Action.reveal, Action.answer true true 3]).1).isFlipped = false ∧
      (handleRestartSession (runActions (startedState ⟨true, [cardA, cardB]⟩ (fun n => n))
            [Action.reveal, Action.answer true true 3]).1).sessionStats =
        { totalCards := (runActions (startedState ⟨true, [cardA, cardB]⟩ (fun n => n))
              [Action.reveal, Action.answer true true 3]).1.sessionStats.totalCards,
          studiedCards := 0, correctAnswers := 0, incorrectAnswers := 0 }) :=
  ⟨⟨rfl, by decide⟩,
    restart_keeps_draw_no_refetch ⟨true, [cardA, cardB]⟩ (fun n => n) rfl (by decide)
      [Action.reveal, Action.answer true true 3]⟩

/-- Traces of composed action sequences concatenate: running
`as ++ bs` runs `as` first and appends the events of running `bs` from
the reached state. -/
theorem runActions_append (s : SessionState) (as bs : List Action) :
    runActions s (as ++ bs) =
      ((runActions (runActions s as).1 bs).1,
        (runActions s as).2 ++ (runActions (runActions s as).1 bs).2) := by
  induction as generalizing s with
  | nil => simp [runActions]
  | cons a rest ih =>
    simp only [List.cons_append, runActions, List.append_eq, ih (stepUI s a).1,
      List.append_assoc]

/-- C10: every per-answer statistics sync of a started session is
computed from the card objects fetched at initialization.  For any
prefix `pre` of session operations (reveals, answers, restarts — hence
any pass, including passes after a restart) followed by recording an
answer with outcome `b`, every sync request that answer emits carries
exactly the absolute values of the current card `c` of the fixed
initial draw (read by the same `cards[currentCardIndex]` lookup the
code performs): `studyCount = c.studyCount + 1` and `correctCount =
c.correctCount + 1` precisely when that answer was correct, with the
answer's timestamp.  The drawn card list is the one installed at
initialization and `c` is one of the initially fetched cards, whose
stored counts are never refreshed or mutated — so answering the same
card in two passes of one session emits identical absolute counts
rather than accumulating ones.  The event moreover occurs in the trace
of the full session run, for any continuation `post`. -/
theorem sync_payload_from_initial_fetch (data : FetchData) (rand : Nat → Nat)
    (hs : data.success = true) (hne : data.cards ≠ []) (pre post : List Action)
    (b ok : Bool) (now : Nat) (e : Event)
    (he : e ∈ (stepUI (runActions (startedState data rand) pre).1
      (Action.answer b ok now)).2)
    (cid sc cc ts : Nat) (heq : e = Event.syncRequest cid sc cc ts) :
    (runActions (startedState data rand) pre).1.cards = (startedState data rand).cards ∧
    (∃ c, (runActions (startedState data rand) pre).1.cards[
            (runActions (startedState data rand) pre).1.currentCardIndex]? = some c ∧
        c ∈ data.cards ∧
        cid = c.id ∧ sc = c.studyCount + 1 ∧
        cc = (if b = true then c.correctCount + 1 else c.correctCount) ∧ ts = now) ∧
    e ∈ (runActions (startedState data rand) (pre ++ Action.answer b ok now :: post)).2 := by
  have hframe : (runActions (startedState data rand) pre).1.cards =
      (startedState data rand).cards :=
    (runActions_frame (startedState data rand) pre).1
  have hshuffle : (startedState data rand).cards = shuffleArray data.cards rand := by
    unfold startedState fetchCards
    rw [if_pos ⟨hs, List.length_pos.mpr hne⟩]
  have htrace : (runActions (startedState data rand)
        (pre ++ Action.answer b ok now :: post)).2 =
      (runActions (startedState data rand) pre).2 ++
        ((stepUI (runActions (startedState data rand) pre).1 (Action.answer b ok now)).2 ++
          (runActions (stepUI (runActions (startedState data rand) pre).1
            (Action.answer b ok now)).1 post).2) := by
    rw [runActions_append]
    simp only [runActions]
  refine ⟨hframe, ?_, by
    rw [htrace]
    exact List.mem_append_right _ (List.mem_append_left _ he)⟩
  subst heq
  simp only [stepUI] at he
  by_cases hg : (runActions (startedState data rand) pre).1.isLoading = false ∧
      (runActions (startedState data rand) pre).1.sessionComplete = false ∧
      (runActions (startedState data rand) pre).1.isFlipped = true ∧
      (runActions (startedState data rand) pre).1.currentCardIndex <
        (runActions (startedState data rand) pre).1.cards.length
  case neg =>
    rw [if_neg hg] at he
    cases he
  case pos =>
    rw [if_pos hg] at he
    obtain ⟨-, -, -, hidx⟩ := hg
    obtain ⟨c, hc⟩ : ∃ c, (runActions (startedState data rand) pre).1.cards[
        (runActions (startedState data rand) pre).1.currentCardIndex]? = some c :=
      ⟨_, List.getElem?_eq_getElem hidx⟩
    have hmem : c ∈ data.cards := by
      have h0 : c ∈ (runActions (startedState data rand) pre).1.cards :=
        List.getElem?_mem hc
      rw [hframe, hshuffle] at h0
      exact (shuffleArray_perm data.cards rand).mem_iff.mp h0
    unfold handleAnswer at he
    rw [hc] at he
    unfold handleAnswerCore at he
    simp only [] at he
    by_cases hlt2 : (runActions (startedState data rand) pre).1.currentCardIndex <
        (runActions (startedState data rand) pre).1.cards.length - 1
    all_goals first
      | rw [if_pos hlt2] at he | rw [if_neg hlt2] at he
    all_goals
      cases ok <;> simp at he <;>
        obtain ⟨h1, h2, h3, h4⟩ := he <;>
        exact ⟨c, hc, hmem, h1, h2, h3, h4⟩

theorem sync_payload_from_initial_fetch_witness :
    ((⟨true, [cardA]⟩ : FetchData).success = true ∧
      (⟨true, [cardA]⟩ : FetchData).cards ≠ [] ∧
      Event.syncRequest 1 5 3 3 ∈
        (stepUI (runActions (startedState ⟨true, [cardA]⟩ (fun n => n)) [Action.reveal]).1
          (Action.answer true false 3)).2) ∧
    ((runActions (startedState ⟨true, [cardA]⟩ (fun n => n)) [Action.reveal]).1.cards =
        (startedState ⟨true, [cardA]⟩ (fun n => n)).cards ∧
      (∃ c, (runActions (startedState ⟨true, [cardA]⟩ (fun n => n)) [Action.reveal]).1.cards[
              (runActions (startedState ⟨true, [cardA]⟩ (fun n => n))
                [Action.reveal]).1.currentCardIndex]? = some c ∧
          c ∈ (⟨true, [cardA]⟩ : FetchData).cards ∧
          1 = c.id ∧ 5 = c.studyCount + 1 ∧
          3 = (if true = true then c.correctCount + 1 else c.correctCount) ∧ 3 = 3) ∧
      Event.syncRequest 1 5 3 3 ∈
        (runActions (startedState ⟨true, [cardA]⟩ (fun n => n))
          ([Action.reveal] ++ Action.answer true false 3 :: [])).2) :=
  ⟨⟨rfl, by decide, by decide⟩,
    sync_payload_from_initial_fetch ⟨true, [cardA]⟩ (fun n => n) rfl (by decide)
      [Action.reveal] [] true false 3 (Event.syncRequest 1 5 3 3) (by decide)
      1 5 3 3 rfl⟩

/-- C9: the completion-summary accuracy is 0 when no card was studied,
and otherwise the round-half-up of `correctAnswers / studiedCards ×
100`; in particular 4 studied cards with 3 correct answers give
accuracy 75. -/
theorem accuracy_round_half_up :
    (∀ stats : SessionStats, stats.studiedCards = 0 → accuracy stats = 0) ∧
    (∀ stats : SessionStats, 0 < stats.studiedCards →
      accuracy stats =
        ⌊(stats.correctAnswers * 100 : ℚ) / (stats.studiedCards : ℚ) + 1 / 2⌋) ∧
    accuracy { totalCards := 4, studiedCards := 4, correctAnswers := 3, incorrectAnswers := 1 } =
      75 := by
  refine ⟨?_, ?_, ?_⟩
  · intro stats h
    simp [accuracy, h]
  · intro stats h
    simp only [accuracy, jsRound, if_pos h]
    rw [div_mul_eq_mul_div]
  · simp only [accuracy, jsRound]
    norm_num

theorem accuracy_round_half_up_witness :
    (SessionStats.studiedCards
        { totalCards := 5, studiedCards := 0, correctAnswers := 0, incorrectAnswers := 0 } = 0) ∧
    accuracy { totalCards := 5, studiedCards := 0, correctAnswers := 0, incorrectAnswers := 0 } = 0 ∧
    accuracy { totalCards := 4, studiedCards := 4, correctAnswers := 3, incorrectAnswers := 1 } =
      75 :=
  ⟨rfl,
    accuracy_round_half_up.1
      { totalCards := 5, studiedCards := 0, correctAnswers := 0, incorrectAnswers := 0 } rfl,
    accuracy_round_half_up.2.2⟩

end FlashLearn
